import Mathlib

/-!
Verification of the voice-agent booking backend (`agent.py`, `db.py`).

The embedding models the appointment store (`db.py`, class `Database`) as a
list of records plus a flag for client presence and per-operation failure
injection (a supabase call that raises is modelled by its failure flag; the
Python methods catch the exception and return their fallback value), and the
conversation tool layer (`agent.py`, class `BookingAgent`) as pure functions
from agent state to a result string and a new state.  The shutdown protocol
(`end_conversation`, `_perform_disconnection`) is modelled over an explicit
environment that fixes the outcome (success, exception, timeout) of every
external call; Python try/except blocks become matches on `Except` values.
-/

namespace VoiceAgent

/-- A row of the `appointments` table (fields as inserted by
`Database.create_appointment`; `id` and `created_at` are store-assigned). -/
structure Appointment where
  id : Nat
  contact_number : String
  user_name : String
  slot_time : String
  details : String
  status : String
  created_at : Nat
deriving DecidableEq, Repr

/-- Failure injection for the supabase calls: a `true` flag means the
corresponding call raises (the Python wrapper catches it). -/
structure DBFail where
  getFails : Bool
  insertFails : Bool
  cancelFails : Bool
  updateFails : Bool
  availFails : Bool
deriving DecidableEq, Repr

/-- No store operation fails. -/
def DBFail.noFail : DBFail := ⟨false, false, false, false, false⟩

/-- The `Database` wrapper of `db.py`: `client = false` models missing
supabase credentials (`self.client = None`). -/
structure Database where
  client : Bool
  appts : List Appointment
  next_id : Nat
  fail : DBFail
deriving DecidableEq, Repr

/-- `Database.get_appointments`: select rows with this contact number;
returns `[]` when the client is absent or the select raises. -/
def Database.get_appointments (db : Database) (user_contact : String) :
    List Appointment :=
  if !db.client then []
  else if db.fail.getFails then []
  else db.appts.filter (fun a => a.contact_number == user_contact)

/-- `Database.is_slot_available`: true iff no confirmed record exists for the
slot; defaults to `true` when the client is absent or the select raises. -/
def Database.is_slot_available (db : Database) (slot : String) : Bool :=
  if !db.client then true
  else if db.fail.availFails then true
  else
    (db.appts.filter
      (fun a => a.slot_time == slot && a.status == "confirmed")).length == 0

/-- `Database.create_appointment`: insert a confirmed record; returns `none`
(Python `None`) when the client is absent or the insert raises. -/
def Database.create_appointment (db : Database)
    (user_contact user_name slot details : String) :
    Option (List Appointment) × Database :=
  if !db.client then (Option.none, db)
  else if db.fail.insertFails then (Option.none, db)
  else
    let a : Appointment :=
      { id := db.next_id, contact_number := user_contact,
        user_name := user_name, slot_time := slot, details := details,
        status := "confirmed", created_at := db.next_id }
    (some [a], { db with appts := db.appts ++ [a], next_id := db.next_id + 1 })

/-- `Database.cancel_appointment`: set `status = "cancelled"` on every row
whose id matches; `none` when the client is absent or the update raises. -/
def Database.cancel_appointment (db : Database) (appointment_id : Nat) :
    Option (List Appointment) × Database :=
  if !db.client then (Option.none, db)
  else if db.fail.cancelFails then (Option.none, db)
  else
    let updated := db.appts.map
      (fun a => if a.id == appointment_id then { a with status := "cancelled" } else a)
    (some (updated.filter (fun a => a.id == appointment_id)),
     { db with appts := updated })

/-- The row rewrite of `Database.update_appointment`: set
`slot_time = new_slot` on a row whose id matches, leave other rows alone. -/
def updSlot (appointment_id : Nat) (new_slot : String) (a : Appointment) :
    Appointment :=
  if a.id == appointment_id then { a with slot_time := new_slot } else a

/-- `Database.update_appointment`: set `slot_time = new_slot` on every row
whose id matches; `none` when the client is absent or the update raises. -/
def Database.update_appointment (db : Database) (appointment_id : Nat)
    (new_slot : String) : Option (List Appointment) × Database :=
  if !db.client then (Option.none, db)
  else if db.fail.updateFails then (Option.none, db)
  else
    let updated := db.appts.map (updSlot appointment_id new_slot)
    (some (updated.filter (fun a => a.id == appointment_id)),
     { db with appts := updated })

/-- The `BookingAgent` state that the tool layer reads and writes:
`user_contact` and `user_name` start as Python `None`. -/
structure AgentState where
  user_contact : Option String
  user_name : Option String
  db : Database
deriving DecidableEq, Repr

/-- Python truthiness of an optional string: `None` and `""` are falsy. -/
def truthy : Option String → Bool
  | Option.none => false
  | some s => !(s == "")

/-- Python `self.user_name or "Unknown"`. -/
def pyOrUnknown : Option String → String
  | Option.none => "Unknown"
  | some s => if s == "" then "Unknown" else s

/-- `BookingAgent.identify_user`: store the contact number, return the
confirmation message. -/
def identify_user (st : AgentState) (contact_number : String) :
    String × AgentState :=
  (s!"Thank you! I have your contact number {contact_number}. How can I help you today?",
   { st with user_contact := some contact_number })

/-- `BookingAgent.book_appointment`: identification check, own-record check,
global availability check, then the insert. -/
def book_appointment (st : AgentState) (slot details : String) :
    String × AgentState :=
  if !(truthy st.user_contact) then
    ("I need your contact number before booking. Please provide it using the identify_user tool.",
     st)
  else
    let contact := st.user_contact.getD ""
    let existing := st.db.get_appointments contact
    if existing.any (fun a => a.slot_time == slot && a.status == "confirmed") then
      (s!"You already have an appointment at {slot}.", st)
    else if !(st.db.is_slot_available slot) then
      (s!"I'm sorry, but the slot {slot} is already booked by another customer. Please choose a different time slot.",
       st)
    else
      match st.db.create_appointment contact (pyOrUnknown st.user_name) slot details with
      | (some _, db2) =>
          (s!"Appointment booked successfully for {slot}. Your appointment details: {details}.",
           { st with db := db2 })
      | (Option.none, db2) =>
          ("I'm sorry, I couldn't book the appointment due to a system error.",
           { st with db := db2 })

/-- `BookingAgent.cancel_appointment`: find the first non-cancelled record at
the slot; if found, fire the store update (its result is ignored by the
Python code) and report success; otherwise report not-found. -/
def cancel_appointment (st : AgentState) (slot : String) :
    String × AgentState :=
  if !(truthy st.user_contact) then
    ("Please provide your phone number.", st)
  else
    let contact := st.user_contact.getD ""
    let appts := st.db.get_appointments contact
    match appts.find? (fun a => a.slot_time == slot && !(a.status == "cancelled")) with
    | some target =>
        let step := st.db.cancel_appointment target.id
        (s!"Appointment at {slot} has been cancelled.", { st with db := step.2 })
    | Option.none =>
        (s!"I couldn't find an active appointment at {slot}.", st)

/-- `BookingAgent.modify_appointment`: find the first non-cancelled record at
`old_slot`, re-check global availability of `new_slot`, then fire the store
update (its result is ignored by the Python code) and report success. -/
def modify_appointment (st : AgentState) (old_slot new_slot : String) :
    String × AgentState :=
  if !(truthy st.user_contact) then
    ("Please identify yourself first using the identify_user tool.", st)
  else
    let contact := st.user_contact.getD ""
    let appts := st.db.get_appointments contact
    match appts.find? (fun a => a.slot_time == old_slot && !(a.status == "cancelled")) with
    | Option.none =>
        (s!"Could not find appointment at {old_slot}.", st)
    | some target =>
        if !(st.db.is_slot_available new_slot) then
          (s!"I'm sorry, but the slot {new_slot} is already booked by another customer. Please choose a different time slot.",
           st)
        else
          let step := st.db.update_appointment target.id new_slot
          (s!"Appointment changed from {old_slot} to {new_slot}.", { st with db := step.2 })

/-! ## Shutdown protocol (`end_conversation`, `_perform_disconnection`) -/

/-- An item of `self.chat_ctx.items`: `isMessage` models
`isinstance(item, llm.ChatMessage)`, `text` models `item.text_content`
(`none` for Python `None`), `isSummary` models
`item.extra and item.extra.get("is_summary")` being truthy. -/
structure ChatItem where
  isMessage : Bool
  role : String
  text : Option String
  isSummary : Bool
deriving DecidableEq, Repr

/-- Python `str.strip()` on whitespace, on the character list (executable
stand-in for `String.trim`). -/
def stripStr (s : String) : String :=
  String.mk
    (((s.data.dropWhile Char.isWhitespace).reverse.dropWhile
        Char.isWhitespace).reverse)

/-- The transcript line one chat item contributes to the summarization
request (lines 300-310 of `agent.py`): only chat messages with truthy text
whose role is `user` or `assistant` and that are not prior summaries
contribute, rendered as `role: stripped-text`. -/
def chatLine (item : ChatItem) : Option String :=
  match item.text with
  | Option.none => Option.none
  | some t =>
    if !item.isMessage then Option.none
    else if t == "" then Option.none
    else if !(item.role == "user" || item.role == "assistant") then Option.none
    else if item.isSummary then Option.none
    else some (item.role ++ ": " ++ stripStr t)

/-- The transcript gathered for summarization. -/
def conversationMessages (items : List ChatItem) : List String :=
  items.filterMap chatLine

/-- The line one chat item contributes to the raw-transcript fallback
(lines 352-355 and 363-366 of `agent.py`): every chat message with truthy
text, rendered as `role: text` (no strip). -/
def historyLine (item : ChatItem) : Option String :=
  match item.text with
  | Option.none => Option.none
  | some t =>
    if !item.isMessage then Option.none
    else if t == "" then Option.none
    else some (item.role ++ ": " ++ t)

/-- The raw-transcript fallback lines. -/
def historyParts (items : List ChatItem) : List String :=
  items.filterMap historyLine

/-- Python `xs[-n:]`: the last `n` elements. -/
def lastN (n : Nat) (xs : List String) : List String :=
  xs.drop (xs.length - n)

/-- The default summary string. -/
def noHistoryMsg : String := "No conversation history available."

/-- The raw-transcript fallback summary: joined history parts, or the
default when there are none. -/
def rawTranscriptSummary (items : List ChatItem) : String :=
  let hp := historyParts items
  if hp.isEmpty then noHistoryMsg else String.intercalate "\n" hp

/-- Environment of one `end_conversation` call: the outcome of every
external interaction in the foreground path.  `llmStream` is the sequence of
`chunk.delta.content` values of the streamed summarization response;
`llmRaises` means the summarization request raises. -/
structure EndEnv where
  broadcastRaises : Bool
  hasSession : Bool
  hasAudio : Bool
  fgFlushRaises : Bool
  fgWaitRaises : Bool
  hasLLM : Bool
  llmRaises : Bool
  llmStream : List String
  chatItems : List ChatItem
  snapshotRaises : Bool
  roomConnected : Bool
  publishRaises : Bool
deriving DecidableEq, Repr

/-- An external call that either returns or raises. -/
def opResult (raises : Bool) : Except Unit Unit :=
  if raises then Except.error () else Except.ok ()

/-- Step 1 of the foreground path (lines 280-293): flush and wait for
current audio playout inside one try/except that swallows any failure. -/
def fgAudioWait (env : EndEnv) : Except Unit Unit :=
  if env.hasSession && env.hasAudio then
    match opResult env.fgFlushRaises with
    | Except.error _ => Except.ok ()
    | Except.ok _ =>
      match opResult env.fgWaitRaises with
      | Except.error _ => Except.ok ()
      | Except.ok _ => Except.ok ()
  else Except.ok ()

/-- Step 2 of the foreground path (lines 296-371): the summary.  When a
session with an LLM handle exists and the gathered transcript is nonempty,
the streamed result is used; an empty stream falls back to the last 10
transcript lines, and a raise during the request falls back to the raw
transcript.  Without an LLM handle the raw-transcript fallback is used. -/
def computeSummary (env : EndEnv) : String :=
  if env.hasSession && env.hasLLM then
    let msgs := conversationMessages env.chatItems
    if msgs.isEmpty then noHistoryMsg
    else
      match opResult env.llmRaises with
      | Except.error _ => rawTranscriptSummary env.chatItems
      | Except.ok _ =>
        let chunks := env.llmStream.filter (fun c => !(c == ""))
        let summary := stripStr (String.join chunks)
        if summary == "" then String.intercalate "\n" (lastN 10 msgs) else summary
  else rawTranscriptSummary env.chatItems

/-- Step 4 of the foreground path (lines 377-391): snapshot the caller's
confirmed appointments, best-effort; a raise leaves the list empty. -/
def snapshotAppointments (env : EndEnv) (st : AgentState) : List String :=
  if truthy st.user_contact then
    match opResult env.snapshotRaises with
    | Except.error _ => []
    | Except.ok _ =>
      (st.db.get_appointments (st.user_contact.getD "")).filterMap fun a =>
        if a.status == "confirmed" then
          some (a.slot_time ++ " - " ++ a.details ++ " (" ++ a.status ++ ")")
        else Option.none
  else []

/-- The result of one `end_conversation` call: the tool's return string,
what the foreground path computed, and whether an exception propagated. -/
structure EndResult where
  response : String
  summary : Option String
  booked : List String
  published : Bool
  backgroundStarted : Bool
  raised : Bool
deriving DecidableEq, Repr

/-- The fixed goodbye text returned by `end_conversation`. -/
def goodbyeMsg : String := "Thank you for calling. Have a great day! Goodbye!"

/-- The foreground body of `end_conversation` inside the big try
(lines 279-413): audio wait, summary, snapshot, summary broadcast. -/
def endForeground (env : EndEnv) (st : AgentState) :
    Except Unit (String × List String × Bool) :=
  match fgAudioWait env with
  | Except.error e => Except.error e
  | Except.ok _ =>
    let summary := computeSummary env
    let booked := snapshotAppointments env st
    let published :=
      if env.roomConnected then
        match opResult env.publishRaises with
        | Except.error _ => false
        | Except.ok _ => true
      else false
    Except.ok (summary, booked, published)

/-- `BookingAgent.end_conversation`: broadcast (failures swallowed), start
the background disconnect task when a session exists, run the foreground
body under a try/except that swallows everything, return the goodbye. -/
def end_conversation (env : EndEnv) (st : AgentState) : EndResult :=
  match opResult env.broadcastRaises with
  | _ =>
    let backgroundStarted := env.hasSession
    match endForeground env st with
    | Except.error _ =>
      { response := goodbyeMsg, summary := Option.none, booked := [],
        published := false, backgroundStarted := backgroundStarted,
        raised := false }
    | Except.ok (s, b, p) =>
      { response := goodbyeMsg, summary := some s, booked := b,
        published := p, backgroundStarted := backgroundStarted,
        raised := false }

/-- A published track of the local participant: `none` models a publication
whose `track` is Python `None`; `some raises` a track whose `stop()` raises
iff `raises`. -/
abbrev TrackPub := Option Bool

/-- The room handle: connection flag and published tracks. -/
structure Room where
  connected : Bool
  tracks : List TrackPub
deriving DecidableEq, Repr

/-- Environment of one `_perform_disconnection` call. -/
structure DiscEnv where
  hasSession : Bool
  shutdownCallRaises : Bool
  hasClosingTask : Bool
  closingTimesOut : Bool
  closingRaises : Bool
  disconnectRaises : Bool
deriving DecidableEq, Repr

/-- The track-stop loop of `_perform_disconnection` (lines 446-456): each
publication with a track gets a `stop()` attempt whose exception is caught
per-track.  Returns (attempted, succeeded). -/
def stopTracksLoop : List TrackPub → Nat × Nat
  | [] => (0, 0)
  | Option.none :: rest => stopTracksLoop rest
  | some raises :: rest =>
      let r := stopTracksLoop rest
      (r.1 + 1, if raises then r.2 else r.2 + 1)

/-- Step 1 of `_perform_disconnection` (lines 422-441): the shutdown request
itself may raise (caught only by the enclosing handler); the wait on the
closing task swallows both timeout and other exceptions. -/
def shutdownStep (env : DiscEnv) : Except Unit Bool :=
  if env.hasSession then
    match opResult env.shutdownCallRaises with
    | Except.error e => Except.error e
    | Except.ok _ =>
      if env.hasClosingTask then
        if env.closingTimesOut then Except.ok true
        else
          match opResult env.closingRaises with
          | Except.error _ => Except.ok true
          | Except.ok _ => Except.ok true
      else Except.ok true
  else Except.ok false

/-- What one `_perform_disconnection` call did. -/
structure DiscTrace where
  shutdownRequested : Bool
  tracksStopAttempted : Nat
  tracksStopped : Nat
  disconnectCalled : Bool
  room : Room
  raised : Bool
deriving DecidableEq, Repr

/-- `BookingAgent._perform_disconnection`: session shutdown, track stops,
room disconnect, all inside one try/except that swallows everything. -/
def perform_disconnection (env : DiscEnv) (room : Room) : DiscTrace :=
  match shutdownStep env with
  | Except.error _ =>
      { shutdownRequested := env.hasSession, tracksStopAttempted := 0,
        tracksStopped := 0, disconnectCalled := false, room := room,
        raised := false }
  | Except.ok req =>
      let stops := if room.connected then stopTracksLoop room.tracks else (0, 0)
      if room.connected then
        match opResult env.disconnectRaises with
        | Except.error _ =>
            { shutdownRequested := req, tracksStopAttempted := stops.1,
              tracksStopped := stops.2, disconnectCalled := true,
              room := room, raised := false }
        | Except.ok _ =>
            { shutdownRequested := req, tracksStopAttempted := stops.1,
              tracksStopped := stops.2, disconnectCalled := true,
              room := { room with connected := false }, raised := false }
      else
        { shutdownRequested := req, tracksStopAttempted := stops.1,
          tracksStopped := stops.2, disconnectCalled := false,
          room := room, raised := false }

/-- Environment of the background `_disconnect_after_goodbye` task. -/
structure BgEnv where
  hasSession : Bool
  hasAudio : Bool
  bgFlushRaises : Bool
  bgWaitTimesOut : Bool
  bgWaitRaises : Bool
  discEnv : DiscEnv
deriving DecidableEq, Repr

/-- The audio-wait phase of the background task (lines 232-259): flush and
bounded playout wait; timeout and any other exception are caught inside the
phase (the exception arm sleeps the remaining budget). -/
def bgWaitPhase (env : BgEnv) : Except Unit Unit :=
  if env.hasSession && env.hasAudio then
    match opResult env.bgFlushRaises with
    | Except.error _ => Except.ok ()
    | Except.ok _ =>
      if env.bgWaitTimesOut then Except.ok ()
      else
        match opResult env.bgWaitRaises with
        | Except.error _ => Except.ok ()
        | Except.ok _ => Except.ok ()
  else Except.ok ()

/-- `end_conversation._disconnect_after_goodbye`: wait for the goodbye
audio, then perform the disconnection; if the body raises, the except arm
performs the disconnection once as forced cleanup (its own failure is also
swallowed).  Returns how many times `_perform_disconnection` was invoked,
its trace, and whether the task propagated an exception. -/
def disconnect_after_goodbye (env : BgEnv) (room : Room) :
    Nat × DiscTrace × Bool :=
  match bgWaitPhase env with
  | Except.ok _ =>
      let tr := perform_disconnection env.discEnv room
      -- `perform_disconnection` swallows everything, so the try body
      -- finishes; were it to raise, the except arm would invoke it again.
      if tr.raised then (2, perform_disconnection env.discEnv tr.room, false)
      else (1, tr, false)
  | Except.error _ =>
      (1, perform_disconnection env.discEnv room, false)

/-- The foreground path of `end_conversation` contains no call to
`_perform_disconnection` (lines 279-417 of `agent.py`). -/
def foregroundDisconnectInvocations (_env : EndEnv) : Nat := 0

/-- Total number of `_perform_disconnection` invocations in one execution of
the shutdown protocol: the foreground path's, plus the background task's
when the task was started (it is created only when a session exists). -/
def shutdownDisconnectInvocations (env : EndEnv) (bg : BgEnv) (room : Room) :
    Nat :=
  foregroundDisconnectInvocations env +
    (if env.hasSession then (disconnect_after_goodbye bg room).1 else 0)

/-! ## Concrete instances used by witnesses and counterexamples -/

/-- Fresh agent state with a working empty store. -/
def freshState : AgentState :=
  { user_contact := Option.none, user_name := Option.none,
    db := { client := true, appts := [], next_id := 0, fail := DBFail.noFail } }

/-- A disconnect environment whose graceful-shutdown request raises. -/
def discEnvShutdownRaises : DiscEnv :=
  { hasSession := true, shutdownCallRaises := true, hasClosingTask := false,
    closingTimesOut := false, closingRaises := false,
    disconnectRaises := false }

/-- A connected room with one stoppable published track. -/
def roomOneTrack : Room := { connected := true, tracks := [some false] }

/-- The number of publications that carry a track: each of these gets a
`stop()` attempt. -/
def trackCount (tracks : List TrackPub) : Nat :=
  (tracks.filterMap id).length

/-- An identified caller in front of a working empty store. -/
def identifiedState : AgentState :=
  { user_contact := some "+15551234", user_name := Option.none,
    db := { client := true, appts := [], next_id := 0, fail := DBFail.noFail } }

/-- The store after the witness booking below. -/
def bookedState : AgentState :=
  { user_contact := some "+15551234", user_name := Option.none,
    db := { client := true,
            appts := [{ id := 0, contact_number := "+15551234",
                        user_name := "Unknown", slot_time := "s1",
                        details := "checkup", status := "confirmed",
                        created_at := 0 }],
            next_id := 1, fail := DBFail.noFail } }

/-- A store whose reads work but whose writes all raise, holding one
confirmed appointment at slot `s1` for the identified caller. -/
def failingWriteState : AgentState :=
  { user_contact := some "+15551234", user_name := some "A",
    db := { client := true,
            appts := [{ id := 0, contact_number := "+15551234",
                        user_name := "A", slot_time := "s1",
                        details := "checkup", status := "confirmed",
                        created_at := 0 }],
            next_id := 1,
            fail := { getFails := false, insertFails := true,
                      cancelFails := true, updateFails := true,
                      availFails := false } } }

/-- One confirmed appointment at slot `s1` behind an identified caller. -/
def singleApptState : AgentState :=
  { user_contact := some "+15551234", user_name := Option.none,
    db := { client := true,
            appts := [{ id := 0, contact_number := "+15551234",
                        user_name := "A", slot_time := "s1",
                        details := "d", status := "confirmed",
                        created_at := 0 }],
            next_id := 1, fail := DBFail.noFail } }

/-- A chat item modelling a system message with text content. -/
def sysChatItem : ChatItem :=
  { isMessage := true, role := "system", text := some "Be concise",
    isSummary := false }

/-- A chat item modelling a user message. -/
def userChatItem : ChatItem :=
  { isMessage := true, role := "user", text := some "hi", isSummary := false }

/-- Environment for the C6 witness: a session with an LLM whose streamed
summary is whitespace only. -/
def summaryWitnessEnv : EndEnv :=
  { broadcastRaises := false, hasSession := true, hasAudio := false,
    fgFlushRaises := false, fgWaitRaises := false, hasLLM := true,
    llmRaises := false, llmStream := [" "],
    chatItems := [sysChatItem, userChatItem], snapshotRaises := false,
    roomConnected := false, publishRaises := false }

/-! ## Helper lemmas -/

/-- `_perform_disconnection` swallows every exception: its enclosing handler
catches whatever the three steps raise. -/
theorem perform_disconnection_never_raises (env : DiscEnv) (room : Room) :
    (perform_disconnection env room).raised = false := by
  unfold perform_disconnection
  cases h : shutdownStep env with
  | error e => simp
  | ok req =>
    by_cases hc : room.connected <;> simp [hc, opResult] <;> split <;> simp

/-- The background task invokes `_perform_disconnection` exactly once: the
forced-cleanup arm only runs when the main body raised before reaching the
call, and the call itself never raises. -/
theorem disconnect_after_goodbye_count (bg : BgEnv) (room : Room) :
    (disconnect_after_goodbye bg room).1 = 1 := by
  unfold disconnect_after_goodbye
  cases h : bgWaitPhase bg <;> simp [perform_disconnection_never_raises]

/-! ## Claims -/

/-- C7: while `user_contact` is unset, `book_appointment`,
`cancel_appointment` and `modify_appointment` each return their
"not identified" natural-language result and leave the agent state (and so
the appointment store) unchanged. -/
theorem unidentified_tools_reject_without_mutation
    (st : AgentState) (slot details old_slot new_slot : String)
    (h : st.user_contact = Option.none) :
    book_appointment st slot details =
      ("I need your contact number before booking. Please provide it using the identify_user tool.",
       st) ∧
    cancel_appointment st slot = ("Please provide your phone number.", st) ∧
    modify_appointment st old_slot new_slot =
      ("Please identify yourself first using the identify_user tool.", st) := by
  simp [book_appointment, cancel_appointment, modify_appointment, truthy, h]

/-- Witness for C7 at a concrete fresh state. -/
theorem unidentified_tools_reject_without_mutation_witness :
    book_appointment freshState "s1" "checkup" =
      ("I need your contact number before booking. Please provide it using the identify_user tool.",
       freshState) ∧
    cancel_appointment freshState "s1" = ("Please provide your phone number.", freshState) ∧
    modify_appointment freshState "s1" "s2" =
      ("Please identify yourself first using the identify_user tool.", freshState) :=
  unidentified_tools_reject_without_mutation freshState "s1" "checkup" "s1" "s2" rfl

/-- C10: `identify_user ""` returns the confirmation message, yet every
booking-mutating tool still answers with its "not identified" result and
mutates nothing, because the identification checks test truthiness of the
stored contact and `""` is falsy. -/
theorem identify_user_empty_confirms_but_not_identified
    (st : AgentState) (slot details old_slot new_slot : String) :
    (identify_user st "").1 =
      "Thank you! I have your contact number . How can I help you today?" ∧
    book_appointment (identify_user st "").2 slot details =
      ("I need your contact number before booking. Please provide it using the identify_user tool.",
       (identify_user st "").2) ∧
    cancel_appointment (identify_user st "").2 slot =
      ("Please provide your phone number.", (identify_user st "").2) ∧
    modify_appointment (identify_user st "").2 old_slot new_slot =
      ("Please identify yourself first using the identify_user tool.",
       (identify_user st "").2) := by
  refine ⟨rfl, ?_, ?_, ?_⟩ <;>
    simp [identify_user, book_appointment, cancel_appointment,
      modify_appointment, truthy]

/-- C3: `end_conversation` returns the fixed goodbye text and propagates no
exception, for every combination of outcomes of audio waiting, summary
generation, appointment snapshotting and event publishing. -/
theorem end_conversation_always_goodbye (env : EndEnv) (st : AgentState) :
    (end_conversation env st).response = goodbyeMsg ∧
    (end_conversation env st).raised = false := by
  unfold end_conversation
  rcases h : endForeground env st with e | ⟨s, b, p⟩ <;> simp [h]

/-- C4: one execution of the shutdown protocol invokes
`_perform_disconnection` at most once (the foreground path never calls it,
the background task calls it exactly once), and even a double invocation
propagates no error from either call. -/
theorem shutdown_disconnect_at_most_once (env : EndEnv) (bg : BgEnv)
    (room room2 : Room) (denv : DiscEnv) :
    shutdownDisconnectInvocations env bg room ≤ 1 ∧
    (perform_disconnection denv room2).raised = false ∧
    (perform_disconnection denv (perform_disconnection denv room2).room).raised
      = false := by
  refine ⟨?_, perform_disconnection_never_raises _ _,
    perform_disconnection_never_raises _ _⟩
  cases hs : env.hasSession <;>
    simp [shutdownDisconnectInvocations, foregroundDisconnectInvocations,
      disconnect_after_goodbye_count, hs]

/-- Counterexample to C5: when the graceful-shutdown request itself raises,
the track-stop and room-disconnect steps are not attempted (no track stop is
tried and the room stays connected), so a failing step does prevent the
subsequent steps. -/
theorem disconnection_steps_not_independent :
    (perform_disconnection discEnvShutdownRaises roomOneTrack).tracksStopAttempted = 0 ∧
    (perform_disconnection discEnvShutdownRaises roomOneTrack).disconnectCalled = false ∧
    (perform_disconnection discEnvShutdownRaises roomOneTrack).room.connected = true := by
  decide

/-- `stopTracksLoop` attempts a stop for every publication with a track,
regardless of which individual stops raise. -/
theorem stopTracksLoop_attempts_all (tracks : List TrackPub) :
    (stopTracksLoop tracks).1 = trackCount tracks := by
  induction tracks with
  | nil => rfl
  | cons t rest ih =>
    cases t <;> simp [stopTracksLoop, trackCount, List.filterMap] at ih ⊢ <;>
      omega

/-- When the shutdown request does not raise, step 1 finishes normally: the
closing-task wait swallows both its timeout and its exceptions. -/
theorem shutdownStep_ok (env : DiscEnv) (h : env.shutdownCallRaises = false) :
    shutdownStep env = Except.ok env.hasSession := by
  unfold shutdownStep
  cases hs : env.hasSession <;> simp [hs, h, opResult] <;> split <;> simp

/-- C5 amended: the wait on the closing task and each individual track stop
swallow their own exceptions, and a single enclosing handler swallows the
rest; hence, provided the graceful-shutdown request itself does not raise,
every published track gets a stop attempt (whatever the closing-task wait
did and whichever individual stops raise) and the room disconnect is
attempted whenever the room is connected; nothing propagates.  (A raise in
the shutdown request itself skips the later steps, per the counterexample.) -/
theorem perform_disconnection_steps_amended (env : DiscEnv) (room : Room)
    (h : env.shutdownCallRaises = false) :
    (perform_disconnection env room).tracksStopAttempted =
      (if room.connected then trackCount room.tracks else 0) ∧
    (perform_disconnection env room).disconnectCalled = room.connected ∧
    (perform_disconnection env room).raised = false := by
  have hstep := shutdownStep_ok env h
  refine ⟨?_, ?_, perform_disconnection_never_raises _ _⟩ <;>
    unfold perform_disconnection <;> rw [hstep] <;>
    by_cases hc : room.connected <;>
      simp [hc, opResult, stopTracksLoop_attempts_all] <;> split <;> simp

/-- Witness for C5 amended: closing-task wait raises and the first of two
tracks fails to stop, yet both stops are attempted and the disconnect runs. -/
theorem perform_disconnection_steps_amended_witness :
    (perform_disconnection
        { hasSession := true, shutdownCallRaises := false,
          hasClosingTask := true, closingTimesOut := false,
          closingRaises := true, disconnectRaises := false }
        { connected := true, tracks := [some true, some false] }).tracksStopAttempted =
      (if ({ connected := true, tracks := [some true, some false] } : Room).connected then
        trackCount ({ connected := true, tracks := [some true, some false] } : Room).tracks
       else 0) ∧
    (perform_disconnection
        { hasSession := true, shutdownCallRaises := false,
          hasClosingTask := true, closingTimesOut := false,
          closingRaises := true, disconnectRaises := false }
        { connected := true, tracks := [some true, some false] }).disconnectCalled =
      ({ connected := true, tracks := [some true, some false] } : Room).connected ∧
    (perform_disconnection
        { hasSession := true, shutdownCallRaises := false,
          hasClosingTask := true, closingTimesOut := false,
          closingRaises := true, disconnectRaises := false }
        { connected := true, tracks := [some true, some false] }).raised = false :=
  perform_disconnection_steps_amended
    { hasSession := true, shutdownCallRaises := false,
      hasClosingTask := true, closingTimesOut := false,
      closingRaises := true, disconnectRaises := false }
    { connected := true, tracks := [some true, some false] } rfl

/-- C1: for an identified caller with a working store, `book_appointment`
follows the decision order of the spec: own confirmed record at the slot →
"already booked", no mutation; otherwise any confirmed record at the slot →
"slot taken", no mutation; otherwise exactly one confirmed record is
created; and a second booking of the same slot by the same contact is
rejected with "already booked" and no further change. -/
theorem book_appointment_decision_order
    (st : AgentState) (c slot details details2 : String)
    (hc : st.user_contact = some c) (hne : c ≠ "")
    (hclient : st.db.client = true) (hfail : st.db.fail = DBFail.noFail) :
    ((st.db.get_appointments c).any
        (fun a => a.slot_time == slot && a.status == "confirmed") = true →
      book_appointment st slot details =
        (s!"You already have an appointment at {slot}.", st)) ∧
    ((st.db.get_appointments c).any
        (fun a => a.slot_time == slot && a.status == "confirmed") = false →
      st.db.is_slot_available slot = false →
      book_appointment st slot details =
        (s!"I'm sorry, but the slot {slot} is already booked by another customer. Please choose a different time slot.",
         st)) ∧
    ((st.db.get_appointments c).any
        (fun a => a.slot_time == slot && a.status == "confirmed") = false →
      st.db.is_slot_available slot = true →
      book_appointment st slot details =
        (s!"Appointment booked successfully for {slot}. Your appointment details: {details}.",
         { st with db := { st.db with
             appts := st.db.appts ++
               [{ id := st.db.next_id, contact_number := c,
                  user_name := pyOrUnknown st.user_name, slot_time := slot,
                  details := details, status := "confirmed",
                  created_at := st.db.next_id }],
             next_id := st.db.next_id + 1 } }) ∧
      book_appointment (book_appointment st slot details).2 slot details2 =
        (s!"You already have an appointment at {slot}.",
         (book_appointment st slot details).2)) := by
  have hbeq : (c == "") = false := by simp [hne]
  refine ⟨?_, ?_, ?_⟩
  · intro hown
    simp [book_appointment, hc, truthy, hbeq, hown]
  · intro hown havail
    simp [book_appointment, hc, truthy, hbeq, hown, havail]
  · intro hown havail
    have hbook : book_appointment st slot details =
        (s!"Appointment booked successfully for {slot}. Your appointment details: {details}.",
         { st with db := { st.db with
             appts := st.db.appts ++
               [{ id := st.db.next_id, contact_number := c,
                  user_name := pyOrUnknown st.user_name, slot_time := slot,
                  details := details, status := "confirmed",
                  created_at := st.db.next_id }],
             next_id := st.db.next_id + 1 } }) := by
      simp [book_appointment, hc, truthy, hbeq, hown, havail,
        Database.create_appointment, hclient, hfail, DBFail.noFail]
    refine ⟨hbook, ?_⟩
    rw [hbook]
    simp [book_appointment, truthy, hc, hbeq, Database.get_appointments,
      hclient, hfail, DBFail.noFail, List.filter_append, List.any_append]

/-- Witness for C1: a concrete booking succeeds and creates the one record;
re-booking the same slot is rejected with "already booked" and no change. -/
theorem book_appointment_decision_order_witness :
    book_appointment identifiedState "s1" "checkup" =
      ("Appointment booked successfully for s1. Your appointment details: checkup.",
       bookedState) ∧
    book_appointment bookedState "s1" "again" =
      ("You already have an appointment at s1.", bookedState) :=
  (book_appointment_decision_order identifiedState "+15551234" "s1" "checkup"
    "again" rfl (by decide) rfl rfl).2.2 rfl rfl

/-- Counterexample to C2: the cancel write fails (the store update raises),
yet `cancel_appointment` returns the success message, not a system-error
message, and the record is still confirmed. -/
theorem cancel_reports_success_on_failed_write :
    (cancel_appointment failingWriteState "s1").1 =
      "Appointment at s1 has been cancelled." ∧
    (cancel_appointment failingWriteState "s1").2 = failingWriteState ∧
    (cancel_appointment failingWriteState "s1").2.db.appts.filter
      (fun a => a.status == "cancelled") = [] := by
  decide

/-- C2 amended: only `book_appointment` reports the generic system-error
message when its store write fails or the store is absent;
`cancel_appointment` and `modify_appointment` ignore the write result and
return their success messages even though the store was not changed. -/
theorem store_write_failure_amended
    (st : AgentState) (c slot1 slot2 details old_slot new_slot : String)
    (hc : st.user_contact = some c) (hne : c ≠ "") :
    ((st.db.get_appointments c).any
        (fun a => a.slot_time == slot1 && a.status == "confirmed") = false →
      st.db.is_slot_available slot1 = true →
      (st.db.client = false ∨ st.db.fail.insertFails = true) →
      book_appointment st slot1 details =
        ("I'm sorry, I couldn't book the appointment due to a system error.",
         st)) ∧
    (∀ t, st.db.client = true → st.db.fail.cancelFails = true →
      (st.db.get_appointments c).find?
        (fun a => a.slot_time == slot2 && !(a.status == "cancelled")) = some t →
      cancel_appointment st slot2 =
        (s!"Appointment at {slot2} has been cancelled.", st)) ∧
    (∀ t, st.db.client = true → st.db.fail.updateFails = true →
      (st.db.get_appointments c).find?
        (fun a => a.slot_time == old_slot && !(a.status == "cancelled")) = some t →
      st.db.is_slot_available new_slot = true →
      modify_appointment st old_slot new_slot =
        (s!"Appointment changed from {old_slot} to {new_slot}.", st)) := by
  obtain ⟨uc, un, db⟩ := st
  have hcu : uc = some c := hc
  subst hcu
  have hbeq : (c == "") = false := by simp [hne]
  refine ⟨?_, ?_, ?_⟩
  · intro hown havail hbad
    have hown2 : (db.get_appointments c).any
        (fun a => a.slot_time == slot1 && a.status == "confirmed") = false := hown
    have havail2 : db.is_slot_available slot1 = true := havail
    rcases hbad with hno | hins
    · have hno2 : db.client = false := hno
      simp [book_appointment, truthy, hbeq, hown2, havail2,
        Database.create_appointment, hno2]
    · have hins2 : db.fail.insertFails = true := hins
      cases hcl : db.client
      · simp [book_appointment, truthy, hbeq, hown2, havail2,
          Database.create_appointment, hcl]
      · simp [book_appointment, truthy, hbeq, hown2, havail2,
          Database.create_appointment, hcl, hins2]
  · intro t hcl hcf hfind
    have hcl2 : db.client = true := hcl
    have hcf2 : db.fail.cancelFails = true := hcf
    have hfind2 : (db.get_appointments c).find?
        (fun a => a.slot_time == slot2 && !(a.status == "cancelled")) = some t := hfind
    simp [cancel_appointment, truthy, hbeq, hfind2,
      Database.cancel_appointment, hcl2, hcf2]
  · intro t hcl huf hfind havail
    have hcl2 : db.client = true := hcl
    have huf2 : db.fail.updateFails = true := huf
    have hfind2 : (db.get_appointments c).find?
        (fun a => a.slot_time == old_slot && !(a.status == "cancelled")) = some t := hfind
    have havail2 : db.is_slot_available new_slot = true := havail
    simp [modify_appointment, truthy, hbeq, hfind2, havail2,
      Database.update_appointment, hcl2, huf2]

/-- Witness for C2 amended at the failing-write store: booking a free slot
reports the system error, while cancel and modify report success with the
store left unchanged. -/
theorem store_write_failure_amended_witness :
    book_appointment failingWriteState "s2" "checkup" =
      ("I'm sorry, I couldn't book the appointment due to a system error.",
       failingWriteState) ∧
    cancel_appointment failingWriteState "s1" =
      ("Appointment at s1 has been cancelled.", failingWriteState) ∧
    modify_appointment failingWriteState "s1" "s2" =
      ("Appointment changed from s1 to s2.", failingWriteState) := by
  have h := store_write_failure_amended failingWriteState "+15551234" "s2"
    "s1" "checkup" "s1" "s2" rfl (by decide)
  exact ⟨h.1 (by decide) (by decide) (Or.inr rfl),
    h.2.1 { id := 0, contact_number := "+15551234", user_name := "A",
            slot_time := "s1", details := "checkup", status := "confirmed",
            created_at := 0 } rfl rfl (by decide),
    h.2.2 { id := 0, contact_number := "+15551234", user_name := "A",
            slot_time := "s1", details := "checkup", status := "confirmed",
            created_at := 0 } rfl rfl (by decide) (by decide)⟩

/-- C8: for an identified caller whose first non-cancelled record at
`old_slot` is `t` (working store): if `new_slot` is available the update
rewrites `slot_time` of the records with `t`'s id and nothing else — id,
creation time, status and every other field survive, and records with a
different id are untouched; if `new_slot` is unavailable the conflict is
reported and the whole state is unchanged. -/
theorem modify_appointment_in_place
    (st : AgentState) (c old_slot new_slot : String) (t : Appointment)
    (hc : st.user_contact = some c) (hne : c ≠ "")
    (hclient : st.db.client = true) (hfail : st.db.fail = DBFail.noFail)
    (htarget : (st.db.get_appointments c).find?
      (fun a => a.slot_time == old_slot && !(a.status == "cancelled")) = some t) :
    (st.db.is_slot_available new_slot = true →
      modify_appointment st old_slot new_slot =
        (s!"Appointment changed from {old_slot} to {new_slot}.",
         { st with db := { st.db with appts := st.db.appts.map (updSlot t.id new_slot) } }) ∧
      ∀ a : Appointment,
        (updSlot t.id new_slot a).id = a.id ∧
        (updSlot t.id new_slot a).created_at = a.created_at ∧
        (updSlot t.id new_slot a).status = a.status ∧
        (updSlot t.id new_slot a).details = a.details ∧
        (updSlot t.id new_slot a).contact_number = a.contact_number ∧
        (updSlot t.id new_slot a).user_name = a.user_name ∧
        (a.id ≠ t.id → updSlot t.id new_slot a = a)) ∧
    (st.db.is_slot_available new_slot = false →
      modify_appointment st old_slot new_slot =
        (s!"I'm sorry, but the slot {new_slot} is already booked by another customer. Please choose a different time slot.",
         st)) := by
  obtain ⟨uc, un, db⟩ := st
  have hcu : uc = some c := hc
  subst hcu
  have hbeq : (c == "") = false := by simp [hne]
  have hclient2 : db.client = true := hclient
  have hfail2 : db.fail = DBFail.noFail := hfail
  have htarget2 : (db.get_appointments c).find?
      (fun a => a.slot_time == old_slot && !(a.status == "cancelled")) = some t := htarget
  refine ⟨?_, ?_⟩
  · intro havail
    have havail2 : db.is_slot_available new_slot = true := havail
    refine ⟨?_, ?_⟩
    · simp [modify_appointment, truthy, hbeq, htarget2, havail2,
        Database.update_appointment, hclient2, hfail2, DBFail.noFail]
    · intro a
      by_cases hid : a.id = t.id <;> simp [updSlot, hid]
  · intro havail
    have havail2 : db.is_slot_available new_slot = false := havail
    simp [modify_appointment, truthy, hbeq, htarget2, havail2]

/-- Witness for C8: moving the single appointment from `s1` to free `s2`
rewrites only its slot. -/
theorem modify_appointment_in_place_witness :
    modify_appointment singleApptState "s1" "s2" =
      ("Appointment changed from s1 to s2.",
       { user_contact := some "+15551234", user_name := Option.none,
         db := { client := true,
                 appts := [{ id := 0, contact_number := "+15551234",
                             user_name := "A", slot_time := "s2",
                             details := "d", status := "confirmed",
                             created_at := 0 }],
                 next_id := 1, fail := DBFail.noFail } }) :=
  ((modify_appointment_in_place singleApptState "+15551234" "s1" "s2"
      { id := 0, contact_number := "+15551234", user_name := "A",
        slot_time := "s1", details := "d", status := "confirmed",
        created_at := 0 }
      rfl (by decide) rfl rfl (by decide)).1 (by decide)).1

/-- C9: the availability re-check of `modify_appointment` counts the
caller's own confirmed records, so a caller holding a confirmed record at
`new_slot` is rejected with the "already booked by another customer"
conflict message and nothing is mutated — in particular whenever
`old_slot = new_slot`. -/
theorem modify_appointment_self_conflict
    (st : AgentState) (c old_slot new_slot : String) (a : Appointment)
    (hc : st.user_contact = some c) (hne : c ≠ "")
    (hclient : st.db.client = true) (hfail : st.db.fail = DBFail.noFail)
    (hmem : a ∈ st.db.appts) (hcontact : a.contact_number = c)
    (hslot : a.slot_time = new_slot) (hstatus : a.status = "confirmed") :
    (((st.db.get_appointments c).find?
        (fun x => x.slot_time == old_slot && !(x.status == "cancelled"))).isSome = true →
      modify_appointment st old_slot new_slot =
        (s!"I'm sorry, but the slot {new_slot} is already booked by another customer. Please choose a different time slot.",
         st)) ∧
    (old_slot = new_slot →
      modify_appointment st old_slot new_slot =
        (s!"I'm sorry, but the slot {new_slot} is already booked by another customer. Please choose a different time slot.",
         st)) := by
  obtain ⟨uc, un, db⟩ := st
  have hcu : uc = some c := hc
  subst hcu
  have hbeq : (c == "") = false := by simp [hne]
  have hclient2 : db.client = true := hclient
  have hfail2 : db.fail = DBFail.noFail := hfail
  have hmem2 : a ∈ db.appts := hmem
  have hmemf : a ∈ db.get_appointments c := by
    simp [Database.get_appointments, hclient2, hfail2, DBFail.noFail,
      List.mem_filter, hmem2, hcontact]
  have havail : db.is_slot_available new_slot = false := by
    have hmf : a ∈ db.appts.filter
        (fun x => x.slot_time == new_slot && x.status == "confirmed") :=
      List.mem_filter.mpr ⟨hmem2, by simp [hslot, hstatus]⟩
    simp [Database.is_slot_available, hclient2, hfail2, DBFail.noFail]
    exact ⟨a, hmem2, hslot, hstatus⟩
  have main : ((db.get_appointments c).find?
      (fun x => x.slot_time == old_slot && !(x.status == "cancelled"))).isSome = true →
      modify_appointment ⟨some c, un, db⟩ old_slot new_slot =
        (s!"I'm sorry, but the slot {new_slot} is already booked by another customer. Please choose a different time slot.",
         ⟨some c, un, db⟩) := by
    intro hfound
    obtain ⟨t, ht⟩ := Option.isSome_iff_exists.mp hfound
    simp [modify_appointment, truthy, hbeq, ht, havail]
  refine ⟨main, ?_⟩
  intro heq
  subst heq
  refine main ?_
  rw [List.find?_isSome]
  exact ⟨a, hmemf, by simp [hslot, hstatus]⟩

/-- Witness for C9: with one confirmed appointment at `s1`, moving it onto
its own slot (`s1` to `s1`) is rejected with the conflict message and the
state is unchanged. -/
theorem modify_appointment_self_conflict_witness :
    modify_appointment singleApptState "s1" "s1" =
      ("I'm sorry, but the slot s1 is already booked by another customer. Please choose a different time slot.",
       singleApptState) :=
  (modify_appointment_self_conflict singleApptState "+15551234" "s1" "s1"
      { id := 0, contact_number := "+15551234", user_name := "A",
        slot_time := "s1", details := "d", status := "confirmed",
        created_at := 0 }
      rfl (by decide) rfl rfl (by decide) rfl rfl rfl).2 rfl

/-- Dropping elements on which `f` yields nothing does not change a
`filterMap`. -/
theorem filterMap_filter_of_none {α β : Type} (f : α → Option β)
    (p : α → Bool) (h : ∀ x, p x = false → f x = Option.none) (l : List α) :
    (l.filter p).filterMap f = l.filterMap f := by
  induction l with
  | nil => rfl
  | cons x xs ih =>
    by_cases hp : p x = true
    · simp [List.filter_cons, hp, List.filterMap_cons, ih]
    · have hf := h x (by simpa using hp)
      simp [List.filter_cons, hp, List.filterMap_cons, hf, ih]

/-- An item whose role is neither `user` nor `assistant` contributes no
transcript line. -/
theorem chatLine_none_of_role (i : ChatItem)
    (h : (i.role == "user" || i.role == "assistant") = false) :
    chatLine i = Option.none := by
  unfold chatLine
  cases ht : i.text with
  | none => rfl
  | some t =>
    by_cases hm : i.isMessage <;> by_cases he : t == "" <;> simp [hm, he, h]

/-- A prior-summary item contributes no transcript line. -/
theorem chatLine_none_of_summary (i : ChatItem) (h : i.isSummary = true) :
    chatLine i = Option.none := by
  unfold chatLine
  cases ht : i.text with
  | none => rfl
  | some t =>
    by_cases hm : i.isMessage <;> by_cases he : t == "" <;> simp [hm, he, h]

/-- Counterexample to C6: the transcript submitted for summarization omits
the system turn — even though it is a proper chat message with text content
and not a prior summary — so the submitted transcript does not consist of
the system, user and assistant turns. -/
theorem summary_transcript_omits_system_turns :
    conversationMessages [sysChatItem, userChatItem] = ["user: hi"] ∧
    ¬ ("system: Be concise" ∈ conversationMessages [sysChatItem, userChatItem]) ∧
    sysChatItem.isMessage = true ∧ sysChatItem.text = some "Be concise" ∧
    sysChatItem.isSummary = false := by
  decide

/-- C6 amended: the transcript submitted for summarization consists of the
user and assistant turns only — system turns and prior summaries are
excluded; when the streamed result is empty the summary falls back to the
last 10 transcript lines; when the summarization request raises, it falls
back to the full raw transcript formatted as role:text lines. -/
theorem end_conversation_summary_amended (env : EndEnv)
    (hs : env.hasSession = true) (hl : env.hasLLM = true) :
    conversationMessages (env.chatItems.filter
        (fun i => i.role == "user" || i.role == "assistant")) =
      conversationMessages env.chatItems ∧
    conversationMessages (env.chatItems.filter (fun i => !i.isSummary)) =
      conversationMessages env.chatItems ∧
    (conversationMessages env.chatItems ≠ [] → env.llmRaises = false →
      stripStr (String.join (env.llmStream.filter (fun c => !(c == "")))) = "" →
      computeSummary env =
        String.intercalate "\n" (lastN 10 (conversationMessages env.chatItems))) ∧
    (conversationMessages env.chatItems ≠ [] → env.llmRaises = true →
      computeSummary env = rawTranscriptSummary env.chatItems) ∧
    (historyParts env.chatItems ≠ [] →
      rawTranscriptSummary env.chatItems =
        String.intercalate "\n" (historyParts env.chatItems)) := by
  refine ⟨?_, ?_, ?_, ?_, ?_⟩
  · exact filterMap_filter_of_none chatLine _
      (fun i hp => chatLine_none_of_role i hp) env.chatItems
  · exact filterMap_filter_of_none chatLine _
      (fun i hp => chatLine_none_of_summary i (by simpa using hp)) env.chatItems
  · intro hmsgs hraise hstrip
    simp [computeSummary, hs, hl, opResult, hraise, hstrip,
      List.isEmpty_iff, hmsgs]
  · intro hmsgs hraise
    simp [computeSummary, hs, hl, opResult, hraise, List.isEmpty_iff, hmsgs]
  · intro hparts
    simp [rawTranscriptSummary, List.isEmpty_iff, hparts]

/-- Witness for C6 amended: the whitespace-only streamed result triggers the
last-10-lines fallback. -/
theorem end_conversation_summary_amended_witness :
    computeSummary summaryWitnessEnv =
      String.intercalate "\n"
        (lastN 10 (conversationMessages summaryWitnessEnv.chatItems)) :=
  (end_conversation_summary_amended summaryWitnessEnv rfl rfl).2.2.1
    (by decide) rfl (by decide)

end VoiceAgent
